import Mathlib

/-!
Verification model of the KPI report generator (`app.py`).

The program reads a raw lead table, normalizes it (parse the creation
timestamp with coercion, coerce the period-label column to string, drop
rows with nulls in the listed columns), derives segment keys from the
distinct source labels, filters each segment by the configured periods
(one of which is a month-to-date window with a day cutoff parsed from the
period name), computes a fixed dictionary of KPIs per subset, and stacks
the non-empty segment blocks with two blank separator rows between them,
dropping the trailing separator.

Numeric cells are modelled as `Option ℚ` (`none` stands for a NaN cell,
e.g. the quantile of an empty column); machine floats are modelled by
exact rationals.
-/

namespace KpiReport

/-- A parsed creation timestamp (`pd.to_datetime` result). Only the
year, month and day components are ever consulted by the program
(`strftime` with a year-month format, and `.dt.day`). -/
structure Timestamp where
  year : ℕ
  month : ℕ
  day : ℕ
deriving DecidableEq, Repr

/-- One row of the raw input table. `leadCreateDateTime` is the result of
`pd.to_datetime(..., errors = coerce)`: `none` is an unparseable or
missing value (NaT). The other optional fields model nullable cells. -/
structure RawRecord where
  leadCreateDateTime : Option Timestamp
  leadCreateMonth : Option String
  opportunitySource : Option String
  isQualified : Option Int
  is_Lead_Called : Option Int
  is_Lead_Connected : Option Int
  attemptHours : Option ℚ
  connectHours : Option ℚ
deriving DecidableEq, Repr

/-- One row of the normalized table: the creation timestamp parsed, the
period label coerced to string, the source label present. -/
structure Lead where
  dt : Timestamp
  leadCreateMonth : String
  source : String
  isQualified : Option Int
  is_Lead_Called : Option Int
  is_Lead_Connected : Option Int
  attemptHours : Option ℚ
  connectHours : Option ℚ
deriving DecidableEq, Repr

/-- Pandas `astype(str)` on a nullable string column: a null cell becomes
the literal string "nan". -/
def astypeStr : Option String → String
  | some s => s
  | none => "nan"

/-- Lines 93-95 of `app.py`: parse the timestamp column with coercion,
coerce `LeadCreateMonth` to string, then
`dropna(subset=[LeadCreateDateTime_dt, LeadCreateMonth, Opportunity Source])`.
After `astype(str)` the `LeadCreateMonth` column holds no nulls (a null
became the string "nan"), so the dropna can only fire on the parsed
timestamp and on the source column. -/
def normalize (raw : List RawRecord) : List Lead :=
  raw.filterMap fun r =>
    match r.leadCreateDateTime, r.opportunitySource with
    | some ts, some src =>
        some { dt := ts, leadCreateMonth := astypeStr r.leadCreateMonth, source := src,
               isQualified := r.isQualified, is_Lead_Called := r.is_Lead_Called,
               is_Lead_Connected := r.is_Lead_Connected,
               attemptHours := r.attemptHours, connectHours := r.connectHours }
    | _, _ => none

/-- Left-pad a decimal string with zeros to width `w` (the behavior of
`strftime` field padding). -/
def pad (w : ℕ) (s : String) : String :=
  String.mk (List.replicate (w - s.length) '0') ++ s

/-- `strftime` with the year-month format used at lines 118 and 120:
zero-padded four-digit year, dash, zero-padded two-digit month. -/
def strftimeYM (t : Timestamp) : String :=
  pad 4 (toString t.year) ++ "-" ++ pad 2 (toString t.month)

/-- Linear-interpolation quantile of a list of rationals, the default
interpolation of `Series.quantile`: sort the values, take the virtual
index `q * (n - 1)` and interpolate between its floor and ceiling
neighbours. The quantile of an empty list is NaN, modelled as `none`. -/
def quantile (xs : List ℚ) (q : ℚ) : Option ℚ :=
  if xs.isEmpty then none
  else
    let s := xs.insertionSort (· ≤ ·)
    let n : ℕ := s.length
    let h : ℚ := q * ((n : ℚ) - 1)
    let lo : ℕ := (Int.floor h).toNat
    let hi : ℕ := (Int.ceil h).toNat
    let vlo := s.getD lo 0
    let vhi := s.getD hi 0
    some (vlo + (h - (lo : ℚ)) * (vhi - vlo))

/-- Lines 41-70 of `app.py`, `calculate_kpis`: the KPI dictionary for one
subset, in insertion order. An empty subset yields the empty dictionary.
Boolean flag tests are pandas comparisons with 1 (a null cell compares
false). The two after-24-hours numerators compare the hours column
against 24 (a null cell compares false). -/
def calculate_kpis (sub_df : List Lead) : List (String × Option ℚ) :=
  if sub_df.isEmpty then []
  else
    let num_leads_created : ℕ := sub_df.length
    let qualified_leads_df := sub_df.filter (fun r => r.isQualified == some 1)
    let num_qualified_leads : ℕ := qualified_leads_df.length
    let attempted_qualified_leads_df :=
      qualified_leads_df.filter (fun r => r.is_Lead_Called == some 1)
    let num_attempted_qualified : ℕ := attempted_qualified_leads_df.length
    let connected_qualified_leads_df :=
      qualified_leads_df.filter (fun r => r.is_Lead_Connected == some 1)
    let num_connected_qualified : ℕ := connected_qualified_leads_df.length
    let total_attempted_df := sub_df.filter (fun r => r.is_Lead_Called == some 1)
    let total_connected_df := sub_df.filter (fun r => r.is_Lead_Connected == some 1)
    let attempted_after_24h : ℕ :=
      (total_attempted_df.filter (fun r =>
        match r.attemptHours with
        | some h => decide (24 < h)
        | none => false)).length
    let connected_after_24h : ℕ :=
      (total_connected_df.filter (fun r =>
        match r.connectHours with
        | some h => decide (24 < h)
        | none => false)).length
    [ ("# of Leads Created (Salesforce)", some (num_leads_created : ℚ)),
      ("# of Qualified leads", some (num_qualified_leads : ℚ)),
      ("% Qualified Leads of Leads Created",
        some (if 0 < num_leads_created then
          (num_qualified_leads : ℚ) / (num_leads_created : ℚ) * 100 else 0)),
      ("# of Leads Attempted", some (num_attempted_qualified : ℚ)),
      ("Attempt% of Qualified leads",
        some (if 0 < num_qualified_leads then
          (num_attempted_qualified : ℚ) / (num_qualified_leads : ℚ) * 100 else 0)),
      ("# of Leads Connected", some (num_connected_qualified : ℚ)),
      ("Connection % of Qualified Leads",
        some (if 0 < num_qualified_leads then
          (num_connected_qualified : ℚ) / (num_qualified_leads : ℚ) * 100 else 0)),
      ("Time to First Attempt (P50) in hours",
        quantile (sub_df.filterMap (fun r => r.attemptHours)) (1/2)),
      ("Time to First Attempt (P90) in hours",
        quantile (sub_df.filterMap (fun r => r.attemptHours)) (9/10)),
      ("Time to First Connect (P50) in hours",
        quantile (sub_df.filterMap (fun r => r.connectHours)) (1/2)),
      ("Time to First Connect (P90) in hours",
        quantile (sub_df.filterMap (fun r => r.connectHours)) (9/10)),
      ("% Contri. of Leads Attempted after 24 hours",
        some (if total_attempted_df.isEmpty then 0 else
          (attempted_after_24h : ℚ) / (total_attempted_df.length : ℚ) * 100)),
      ("% Contri. of Leads Contacted after 24 hours",
        some (if total_connected_df.isEmpty then 0 else
          (connected_after_24h : ℚ) / (total_connected_df.length : ℚ) * 100)) ]

/-- Does one character list begin with another (helper for substring
search over the characters of a string). -/
def startsW : List Char → List Char → Bool
  | [], _ => true
  | _ :: _, [] => false
  | a :: ps, b :: ss => a == b && startsW ps ss

/-- Substring containment over character lists (the Python `in` test on
strings). -/
def containsSub (p : List Char) : List Char → Bool
  | [] => startsW p []
  | c :: rest => startsW p (c :: rest) || containsSub p rest

/-- The test at line 116, `MTD in period_name`. -/
def containsMTD (period_name : String) : Bool :=
  containsSub "MTD".data period_name.data

/-- Strip a literal pattern from the front of a character list, returning
the remainder on a match. -/
def stripP : List Char → List Char → Option (List Char)
  | [], s => some s
  | _ :: _, [] => none
  | a :: ps, b :: ss => if a == b then stripP ps ss else none

/-- The character list after the first occurrence of the pattern, if any:
the piece `split(sep)[1]` selects when the separator occurs once in the
string (as it does in the configured period names). -/
def afterSub (p : List Char) : List Char → Option (List Char)
  | [] => stripP p []
  | c :: rest =>
    match stripP p (c :: rest) with
    | some r => some r
    | none => afterSub p rest

/-- Python `replace` of a two-character pattern with the empty string:
left-to-right, non-overlapping. -/
def removePair (a b : Char) : List Char → List Char
  | x :: y :: rest =>
    if x == a && y == b then removePair a b rest
    else x :: removePair a b (y :: rest)
  | l => l

/-- Python `replace` of a single character with the empty string. -/
def removeChar (a : Char) : List Char → List Char
  | [] => []
  | x :: rest => if x == a then removeChar a rest else x :: removeChar a rest

/-- Parse a decimal numeral from a character list (`int(...)`); `none`
when empty or not all digits. -/
def digitsToNat (l : List Char) : Option ℕ :=
  if l.isEmpty then none
  else
    l.foldl (fun acc c =>
      match acc with
      | none => none
      | some n => if c.isDigit then some (n * 10 + (c.toNat - 48)) else none)
      (some 0)

/-- Line 117 of `app.py`: extract the day cutoff from an MTD period name
by taking the text after "till ", deleting the ordinal suffixes
"th", "st", "nd", "rd" and the closing parenthesis, and reading the
remaining digits (0 when nothing parses; the configured name parses). -/
def parse_day_limit (period_name : String) : ℕ :=
  let after := (afterSub "till ".data period_name.data).getD []
  let cleaned :=
    removeChar ')'
      (removePair 'r' 'd'
        (removePair 'n' 'd'
          (removePair 's' 't'
            (removePair 't' 'h' after))))
  (digitsToNat cleaned).getD 0

/-- Line 120: keep the rows whose formatted year-month equals the
period's month string. -/
def month_filter (df_source : List Lead) (month_string : String) : List Lead :=
  df_source.filter (fun r => strftimeYM r.dt == month_string)

/-- Line 118: the month-to-date filter, formatted year-month equality and
day-of-month at most the cutoff (inclusive). -/
def mtd_filter (df_source : List Lead) (month_string : String) (day_limit : ℕ) : List Lead :=
  df_source.filter (fun r => strftimeYM r.dt == month_string && decide (r.dt.day ≤ day_limit))

/-- Lines 116-120: choose the MTD filter when the period name contains
"MTD", the plain month filter otherwise. -/
def period_subset (df_source : List Lead) (period_name month_string : String) : List Lead :=
  if containsMTD period_name then
    mtd_filter df_source month_string (parse_day_limit period_name)
  else
    month_filter df_source month_string

/-- Line 114: the segment subset for one segment key; the sentinel
"Overall" takes the whole table, any other key filters on exact source
equality. -/
def segment_df (df : List Lead) (source : String) : List Lead :=
  if source == "Overall" then df else df.filter (fun r => r.source == source)

/-- The `sorted([s for s in df[Opportunity Source].unique() if pd.notna(s)])`
expression at line 110: the distinct source labels of the normalized
table in lexicographic order (post-normalization the column holds no
nulls, so the notna test filters nothing). -/
def sortedSources (df : List Lead) : List String :=
  ((df.map (fun r => r.source)).dedup).insertionSort (· ≤ ·)

/-- Line 110: the segment keys, the sentinel "Overall" first. -/
def sources_to_analyze (df : List Lead) : List String :=
  "Overall" :: sortedSources df

/-- Lines 115-121: the per-period KPI dictionaries for one segment
subset, keyed by period name, in the configured period order. -/
def monthly_kpis_for_source (periods : List (String × String)) (df_source : List Lead) :
    List (String × List (String × Option ℚ)) :=
  periods.map fun p => (p.1, calculate_kpis (period_subset df_source p.1 p.2))

/-- Line 122: keep only the periods whose KPI dictionary is non-empty,
for the given segment key. -/
def filtered_results (periods : List (String × String)) (df : List Lead) (source : String) :
    List (String × List (String × Option ℚ)) :=
  (monthly_kpis_for_source periods (segment_df df source)).filter (fun p => !p.2.isEmpty)

/-- One element of `all_reports_list`: either a segment block (the
segment key with its non-empty period results, from which the block's
data frame is built) or one blank separator row. -/
inductive ReportItem where
  | block (source : String) (results : List (String × List (String × Option ℚ)))
  | blankRow
deriving DecidableEq, Repr

/-- Lines 111-130: the consolidation loop. A segment with no non-empty
period results is skipped (`continue`); otherwise its block is appended
followed by two blank rows. -/
def all_reports_list (periods : List (String × String)) (df : List Lead) : List ReportItem :=
  (sources_to_analyze df).foldl
    (fun acc source =>
      let fr := filtered_results periods df source
      if fr.isEmpty then acc
      else acc ++ [ReportItem.block source fr, ReportItem.blankRow, ReportItem.blankRow])
    []

/-- Lines 131-132: drop the trailing two blank rows when the list is
non-empty. -/
def final_report (periods : List (String × String)) (df : List Lead) : List ReportItem :=
  let l := all_reports_list periods df
  if l.isEmpty then l else l.dropLast.dropLast

/-- Line 109: the configured periods, in insertion order. -/
def periods_to_analyze : List (String × String) :=
  [("April", "2025-04"), ("May", "2025-05"), ("June MTD (till 19th)", "2025-06")]

/-- A raw input table: the set of column names present, and the rows. -/
structure RawTable where
  columns : List String
  rows : List RawRecord

/-- The columns the data-preparation step (lines 93-95) accesses on the
raw table; a missing one raises a KeyError naming it. -/
def required_columns : List String :=
  ["LeadCreateDateTime", "LeadCreateMonth", "Opportunity Source"]

/-- The run from raw table to consolidated report. Column accesses in
the preparation step fail, in program order, with an error naming the
missing column (the KeyError caught at line 152); otherwise the report
is produced. -/
def main_run (t : RawTable) : Except String (List ReportItem) :=
  if "LeadCreateDateTime" ∈ t.columns then
    if "LeadCreateMonth" ∈ t.columns then
      if "Opportunity Source" ∈ t.columns then
        Except.ok (final_report periods_to_analyze (normalize t.rows))
      else Except.error "Opportunity Source"
    else Except.error "LeadCreateMonth"
  else Except.error "LeadCreateDateTime"

/-- Rounding of a report cell to one decimal place (line 138,
`.round(1)`), with the half-to-even tie rule of the underlying library. -/
def roundHalfEven (x : ℚ) : ℤ :=
  let f := Int.floor x
  let r := x - (f : ℚ)
  if r < 1/2 then f
  else if 1/2 < r then f + 1
  else if f % 2 = 0 then f else f + 1

/-- Round a value to one decimal place as the final report does. -/
def round1 (x : ℚ) : ℚ :=
  ((roundHalfEven (x * 10) : ℤ) : ℚ) / 10

/-- A raw record whose period label is null but whose timestamp parses
and whose source is present. -/
def missingMonthRecord : RawRecord :=
  { leadCreateDateTime := some ⟨2025, 5, 10⟩, leadCreateMonth := none,
    opportunitySource := some "Web", isQualified := some 1,
    is_Lead_Called := none, is_Lead_Connected := none,
    attemptHours := none, connectHours := none }

/-- A lead created on day 19 of June 2025. -/
def day19lead : Lead :=
  { dt := ⟨2025, 6, 19⟩, leadCreateMonth := "2025-06", source := "Web",
    isQualified := some 1, is_Lead_Called := none, is_Lead_Connected := none,
    attemptHours := none, connectHours := none }

/-- A lead created on day 20 of June 2025. -/
def day20lead : Lead :=
  { dt := ⟨2025, 6, 20⟩, leadCreateMonth := "2025-06", source := "Web",
    isQualified := some 1, is_Lead_Called := none, is_Lead_Connected := none,
    attemptHours := none, connectHours := none }

/-- C1: the specification says a record missing its period label is
dropped by the normalizer, but the program coerces the period-label
column to string first, turning the null into the string "nan", so the
subsequent dropna never fires on that column: the record is kept. -/
theorem normalize_keeps_missing_month :
    normalize [missingMonthRecord]
      = [{ dt := ⟨2025, 5, 10⟩, leadCreateMonth := "nan", source := "Web",
           isQualified := some 1, is_Lead_Called := none, is_Lead_Connected := none,
           attemptHours := none, connectHours := none }] := rfl

/-- C8: the KPI calculator on a subset with zero rows returns the empty
result, with no metric keys at all. -/
theorem calculate_kpis_empty (sub : List Lead) (h : sub.length = 0) :
    calculate_kpis sub = [] := by
  rw [List.length_eq_zero] at h
  subst h
  rfl

/-- Witness for C8 at the empty subset. -/
theorem calculate_kpis_empty_witness :
    ([] : List Lead).length = 0 ∧ calculate_kpis [] = [] :=
  ⟨rfl, calculate_kpis_empty [] rfl⟩

/-- C5: the month-to-date filter keeps a record exactly when its
formatted year-month equals the period's month string and its
day-of-month is at most the cutoff (inclusive); the configured MTD
period name parses to cutoff 19, and with cutoff 19 a record created on
day 19 is kept while one created on day 20 of the same month is not. -/
theorem mtd_filter_keeps_iff :
    (∀ (df : List Lead) (m : String) (d : ℕ) (r : Lead),
        r ∈ mtd_filter df m d ↔ r ∈ df ∧ strftimeYM r.dt = m ∧ r.dt.day ≤ d)
  ∧ (∀ df : List Lead,
        period_subset df "June MTD (till 19th)" "2025-06" = mtd_filter df "2025-06" 19)
  ∧ day19lead ∈ mtd_filter [day19lead, day20lead] "2025-06" 19
  ∧ day20lead ∉ mtd_filter [day19lead, day20lead] "2025-06" 19 := by
  refine ⟨?_, ?_, ?_, ?_⟩
  · intro df m d r
    simp [mtd_filter, List.mem_filter, Bool.and_eq_true, beq_iff_eq, decide_eq_true_eq,
      and_assoc]
  · intro df
    have h1 : containsMTD "June MTD (till 19th)" = true := by decide
    have h2 : parse_day_limit "June MTD (till 19th)" = 19 := by decide
    simp [period_subset, h1, h2]
  · decide
  · decide

/-- C6: the segment keys are the sentinel "Overall" first, then the
distinct source labels present in the normalized table in strictly
increasing lexicographic order. -/
theorem sources_to_analyze_spec (df : List Lead) :
    sources_to_analyze df = "Overall" :: sortedSources df
  ∧ (sortedSources df).Sorted (· < ·)
  ∧ ∀ s : String, s ∈ sortedSources df ↔ s ∈ df.map (fun r => r.source) := by
  refine ⟨rfl, ?_, ?_⟩
  · have hs : (sortedSources df).Sorted (· ≤ ·) := List.sorted_insertionSort _ _
    have hn : (sortedSources df).Nodup := by
      have hp := List.perm_insertionSort (α := String) (· ≤ ·)
        ((df.map (fun r => r.source)).dedup)
      exact hp.nodup_iff.mpr (List.nodup_dedup _)
    exact hs.lt_of_le hn
  · intro s
    rw [sortedSources, List.mem_insertionSort, List.mem_dedup]

/-- Row count of a subset (the metric's denominator per the spec). -/
def numLeadsCreated (sub : List Lead) : ℕ := sub.length

/-- Count of rows whose qualification flag is 1. -/
def numQualified (sub : List Lead) : ℕ :=
  (sub.filter (fun r => r.isQualified == some 1)).length

/-- Count of qualified rows whose contacted flag is 1. -/
def numAttemptedQualified (sub : List Lead) : ℕ :=
  ((sub.filter (fun r => r.isQualified == some 1)).filter
    (fun r => r.is_Lead_Called == some 1)).length

/-- Count of qualified rows whose connected flag is 1. -/
def numConnectedQualified (sub : List Lead) : ℕ :=
  ((sub.filter (fun r => r.isQualified == some 1)).filter
    (fun r => r.is_Lead_Connected == some 1)).length

/-- Count of all rows whose contacted flag is 1. -/
def numTotalAttempted (sub : List Lead) : ℕ :=
  (sub.filter (fun r => r.is_Lead_Called == some 1)).length

/-- Count of all rows whose connected flag is 1. -/
def numTotalConnected (sub : List Lead) : ℕ :=
  (sub.filter (fun r => r.is_Lead_Connected == some 1)).length

/-- Count of contacted rows with hours-to-first-attempt above 24. -/
def numAttemptedAfter24 (sub : List Lead) : ℕ :=
  ((sub.filter (fun r => r.is_Lead_Called == some 1)).filter
    (fun r => match r.attemptHours with
      | some h => decide (24 < h)
      | none => false)).length

/-- Count of connected rows with hours-to-first-connect above 24. -/
def numConnectedAfter24 (sub : List Lead) : ℕ :=
  ((sub.filter (fun r => r.is_Lead_Connected == some 1)).filter
    (fun r => match r.connectHours with
      | some h => decide (24 < h)
      | none => false)).length

/-- C2: each of the five percentage metrics of a non-empty subset equals
its numerator divided by its denominator times 100, and whenever the
denominator is zero the stored value is 0 — a present rational, never an
absent or undefined cell. -/
theorem calculate_kpis_percentages (sub : List Lead) (h : sub ≠ []) :
    ((calculate_kpis sub).lookup "% Qualified Leads of Leads Created"
        = some (some ((numQualified sub : ℚ) / (numLeadsCreated sub : ℚ) * 100))
      ∧ (numLeadsCreated sub = 0 →
          (calculate_kpis sub).lookup "% Qualified Leads of Leads Created" = some (some 0)))
  ∧ ((calculate_kpis sub).lookup "Attempt% of Qualified leads"
        = some (some ((numAttemptedQualified sub : ℚ) / (numQualified sub : ℚ) * 100))
      ∧ (numQualified sub = 0 →
          (calculate_kpis sub).lookup "Attempt% of Qualified leads" = some (some 0)))
  ∧ ((calculate_kpis sub).lookup "Connection % of Qualified Leads"
        = some (some ((numConnectedQualified sub : ℚ) / (numQualified sub : ℚ) * 100))
      ∧ (numQualified sub = 0 →
          (calculate_kpis sub).lookup "Connection % of Qualified Leads" = some (some 0)))
  ∧ ((calculate_kpis sub).lookup "% Contri. of Leads Attempted after 24 hours"
        = some (some ((numAttemptedAfter24 sub : ℚ) / (numTotalAttempted sub : ℚ) * 100))
      ∧ (numTotalAttempted sub = 0 →
          (calculate_kpis sub).lookup "% Contri. of Leads Attempted after 24 hours"
            = some (some 0)))
  ∧ ((calculate_kpis sub).lookup "% Contri. of Leads Contacted after 24 hours"
        = some (some ((numConnectedAfter24 sub : ℚ) / (numTotalConnected sub : ℚ) * 100))
      ∧ (numTotalConnected sub = 0 →
          (calculate_kpis sub).lookup "% Contri. of Leads Contacted after 24 hours"
            = some (some 0))) := by
  have hne : sub.isEmpty = false := by
    cases sub with
    | nil => exact absurd rfl h
    | cons a l => rfl
  have hn : 0 < sub.length := List.length_pos.mpr h
  refine ⟨⟨?_, ?_⟩, ⟨?_, ?_⟩, ⟨?_, ?_⟩, ⟨?_, ?_⟩, ⟨?_, ?_⟩⟩
  · simp only [calculate_kpis, hne, Bool.false_eq_true, if_false, List.lookup,
      String.reduceBEq, numQualified, numLeadsCreated]
    rw [if_pos hn]
  · intro h0
    simp only [numLeadsCreated] at h0
    omega
  · by_cases hq : (List.filter (fun r => r.isQualified == some 1) sub).length = 0
    · simp only [calculate_kpis, hne, Bool.false_eq_true, if_false, List.lookup,
        String.reduceBEq, numAttemptedQualified, numQualified]
      rw [hq]
      norm_num
    · simp only [calculate_kpis, hne, Bool.false_eq_true, if_false, List.lookup,
        String.reduceBEq, numAttemptedQualified, numQualified]
      rw [if_pos (Nat.pos_of_ne_zero hq)]
  · intro h0
    simp only [numQualified] at h0
    simp only [calculate_kpis, hne, Bool.false_eq_true, if_false, List.lookup,
      String.reduceBEq]
    rw [h0]
    norm_num
  · by_cases hq : (List.filter (fun r => r.isQualified == some 1) sub).length = 0
    · simp only [calculate_kpis, hne, Bool.false_eq_true, if_false, List.lookup,
        String.reduceBEq, numConnectedQualified, numQualified]
      rw [hq]
      norm_num
    · simp only [calculate_kpis, hne, Bool.false_eq_true, if_false, List.lookup,
        String.reduceBEq, numConnectedQualified, numQualified]
      rw [if_pos (Nat.pos_of_ne_zero hq)]
  · intro h0
    simp only [numQualified] at h0
    simp only [calculate_kpis, hne, Bool.false_eq_true, if_false, List.lookup,
      String.reduceBEq]
    rw [h0]
    norm_num
  · by_cases ha : (List.filter (fun r => r.is_Lead_Called == some 1) sub).length = 0
    · have hl := List.length_eq_zero.mp ha
      simp only [calculate_kpis, hne, Bool.false_eq_true, if_false, List.lookup,
        String.reduceBEq, numAttemptedAfter24, numTotalAttempted]
      rw [hl]
      norm_num
    · have hl : (List.filter (fun r => r.is_Lead_Called == some 1) sub).isEmpty = false :=
        List.isEmpty_eq_false.mpr (List.length_pos.mp (Nat.pos_of_ne_zero ha))
      simp only [calculate_kpis, hne, Bool.false_eq_true, if_false, List.lookup,
        String.reduceBEq, numAttemptedAfter24, numTotalAttempted, hl]
  · intro h0
    simp only [numTotalAttempted] at h0
    have hl := List.length_eq_zero.mp h0
    simp only [calculate_kpis, hne, Bool.false_eq_true, if_false, List.lookup,
      String.reduceBEq]
    rw [hl]
    norm_num
  · by_cases hc : (List.filter (fun r => r.is_Lead_Connected == some 1) sub).length = 0
    · have hl := List.length_eq_zero.mp hc
      simp only [calculate_kpis, hne, Bool.false_eq_true, if_false, List.lookup,
        String.reduceBEq, numConnectedAfter24, numTotalConnected]
      rw [hl]
      norm_num
    · have hl : (List.filter (fun r => r.is_Lead_Connected == some 1) sub).isEmpty = false :=
        List.isEmpty_eq_false.mpr (List.length_pos.mp (Nat.pos_of_ne_zero hc))
      simp only [calculate_kpis, hne, Bool.false_eq_true, if_false, List.lookup,
        String.reduceBEq, numConnectedAfter24, numTotalConnected, hl]
  · intro h0
    simp only [numTotalConnected] at h0
    have hl := List.length_eq_zero.mp h0
    simp only [calculate_kpis, hne, Bool.false_eq_true, if_false, List.lookup,
      String.reduceBEq]
    rw [hl]
    norm_num

/-- A one-row subset with no qualified lead, exercising the
denominator-zero branches. -/
def percSub : List Lead :=
  [{ dt := ⟨2025, 5, 1⟩, leadCreateMonth := "2025-05", source := "Web",
     isQualified := some 0, is_Lead_Called := some 0, is_Lead_Connected := some 0,
     attemptHours := none, connectHours := none }]

/-- Witness for C2 on a concrete subset with zero qualified leads: the
Attempt% metric evaluates to 0, not an undefined value. -/
theorem calculate_kpis_percentages_witness :
    percSub ≠ []
  ∧ numQualified percSub = 0
  ∧ (calculate_kpis percSub).lookup "Attempt% of Qualified leads" = some (some 0) :=
  ⟨by decide, by decide,
    (calculate_kpis_percentages percSub (by decide)).2.1.2 (by decide)⟩

/-- The spec's end-to-end example subset: 10 leads, all source "Web",
created in May 2025, 6 qualified, 4 of those contacted, 3 of those
connected, attempt-hours of the contacted equal to 5, 10, 30 and 50. -/
def c3_sub : List Lead :=
  [ { dt := ⟨2025, 5, 1⟩, leadCreateMonth := "2025-05", source := "Web", isQualified := some 1,
      is_Lead_Called := some 1, is_Lead_Connected := some 1, attemptHours := some 5,
      connectHours := none },
    { dt := ⟨2025, 5, 2⟩, leadCreateMonth := "2025-05", source := "Web", isQualified := some 1,
      is_Lead_Called := some 1, is_Lead_Connected := some 1, attemptHours := some 10,
      connectHours := none },
    { dt := ⟨2025, 5, 3⟩, leadCreateMonth := "2025-05", source := "Web", isQualified := some 1,
      is_Lead_Called := some 1, is_Lead_Connected := some 1, attemptHours := some 30,
      connectHours := none },
    { dt := ⟨2025, 5, 4⟩, leadCreateMonth := "2025-05", source := "Web", isQualified := some 1,
      is_Lead_Called := some 1, is_Lead_Connected := some 0, attemptHours := some 50,
      connectHours := none },
    { dt := ⟨2025, 5, 5⟩, leadCreateMonth := "2025-05", source := "Web", isQualified := some 1,
      is_Lead_Called := some 0, is_Lead_Connected := some 0, attemptHours := none,
      connectHours := none },
    { dt := ⟨2025, 5, 6⟩, leadCreateMonth := "2025-05", source := "Web", isQualified := some 1,
      is_Lead_Called := some 0, is_Lead_Connected := some 0, attemptHours := none,
      connectHours := none },
    { dt := ⟨2025, 5, 7⟩, leadCreateMonth := "2025-05", source := "Web", isQualified := some 0,
      is_Lead_Called := some 0, is_Lead_Connected := some 0, attemptHours := none,
      connectHours := none },
    { dt := ⟨2025, 5, 8⟩, leadCreateMonth := "2025-05", source := "Web", isQualified := some 0,
      is_Lead_Called := some 0, is_Lead_Connected := some 0, attemptHours := none,
      connectHours := none },
    { dt := ⟨2025, 5, 9⟩, leadCreateMonth := "2025-05", source := "Web", isQualified := some 0,
      is_Lead_Called := some 0, is_Lead_Connected := some 0, attemptHours := none,
      connectHours := none },
    { dt := ⟨2025, 5, 10⟩, leadCreateMonth := "2025-05", source := "Web", isQualified := some 0,
      is_Lead_Called := some 0, is_Lead_Connected := some 0, attemptHours := none,
      connectHours := none } ]

/-- Rounding to one decimal when the scaled value sits strictly below
the halfway point above its floor. -/
lemma round1_low (x : ℚ) (n : ℤ) (h1 : ⌊x * 10⌋ = n) (h3 : x * 10 - (n : ℚ) < 1/2) :
    round1 x = (n : ℚ) / 10 := by
  simp only [round1, roundHalfEven, h1]
  rw [if_pos h3]

/-- Rounding to one decimal when the scaled value sits strictly above
the halfway point above its floor. -/
lemma round1_high (x : ℚ) (n : ℤ) (h1 : ⌊x * 10⌋ = n) (h3 : 1/2 < x * 10 - (n : ℚ)) :
    round1 x = ((n + 1 : ℤ) : ℚ) / 10 := by
  simp only [round1, roundHalfEven, h1]
  rw [if_neg (by linarith), if_pos h3]

/-- C3: on the spec's end-to-end example subset the calculator yields,
after final one-decimal rounding, 10 leads created, 6 qualified, 60.0
percent qualified, 4 attempted, 66.7 attempt percent, 3 connected, and
50.0 percent of attempts after 24 hours. -/
theorem calculate_kpis_example :
    ((calculate_kpis c3_sub).lookup "# of Leads Created (Salesforce)").map (Option.map round1)
        = some (some 10)
  ∧ ((calculate_kpis c3_sub).lookup "# of Qualified leads").map (Option.map round1)
        = some (some 6)
  ∧ ((calculate_kpis c3_sub).lookup "% Qualified Leads of Leads Created").map (Option.map round1)
        = some (some 60)
  ∧ ((calculate_kpis c3_sub).lookup "# of Leads Attempted").map (Option.map round1)
        = some (some 4)
  ∧ ((calculate_kpis c3_sub).lookup "Attempt% of Qualified leads").map (Option.map round1)
        = some (some (667/10))
  ∧ ((calculate_kpis c3_sub).lookup "# of Leads Connected").map (Option.map round1)
        = some (some 3)
  ∧ ((calculate_kpis c3_sub).lookup "% Contri. of Leads Attempted after 24 hours").map
        (Option.map round1)
        = some (some 50) := by
  have d5 : (decide ((24:ℚ) < 5)) = false := by decide
  have d10 : (decide ((24:ℚ) < 10)) = false := by decide
  have d30 : (decide ((24:ℚ) < 30)) = true := by decide
  have d50 : (decide ((24:ℚ) < 50)) = true := by decide
  refine ⟨?_, ?_, ?_, ?_, ?_, ?_, ?_⟩
  · simp [calculate_kpis, c3_sub, List.lookup, d5, d10, d30, d50]
    rw [round1_low 10 100 (by rw [Int.floor_eq_iff]; norm_num) (by push_cast; norm_num)]
    norm_num
  · simp [calculate_kpis, c3_sub, List.lookup, d5, d10, d30, d50]
    rw [round1_low 6 60 (by rw [Int.floor_eq_iff]; norm_num) (by push_cast; norm_num)]
    norm_num
  · simp [calculate_kpis, c3_sub, List.lookup, d5, d10, d30, d50]
    rw [show ((6:ℚ)/10*100 : ℚ) = 60 by norm_num,
      round1_low 60 600 (by rw [Int.floor_eq_iff]; norm_num) (by push_cast; norm_num)]
    norm_num
  · simp [calculate_kpis, c3_sub, List.lookup, d5, d10, d30, d50]
    rw [round1_low 4 40 (by rw [Int.floor_eq_iff]; norm_num) (by push_cast; norm_num)]
    norm_num
  · simp [calculate_kpis, c3_sub, List.lookup, d5, d10, d30, d50]
    rw [round1_high (4/6*100) 666 (by rw [Int.floor_eq_iff]; norm_num)
      (by push_cast; norm_num)]
    norm_num
  · simp [calculate_kpis, c3_sub, List.lookup, d5, d10, d30, d50]
    rw [round1_low 3 30 (by rw [Int.floor_eq_iff]; norm_num) (by push_cast; norm_num)]
    norm_num
  · simp [calculate_kpis, c3_sub, List.lookup, d5, d10, d30, d50]
    rw [show ((2:ℚ)/4*100 : ℚ) = 50 by norm_num,
      round1_low 50 500 (by rw [Int.floor_eq_iff]; norm_num) (by push_cast; norm_num)]
    norm_num

/-- The blocks of the report in segment order: one entry per segment key
whose period results are not all empty, skipping the others (the
`continue` at line 123). -/
def report_blocks (periods : List (String × String)) (df : List Lead) : List ReportItem :=
  (sources_to_analyze df).filterMap (fun source =>
    let fr := filtered_results periods df source
    if fr.isEmpty then none else some (ReportItem.block source fr))

/-- Written from the specification text: the blocks stacked with exactly
two blank separator rows between consecutive blocks and none after the
final one. -/
def sepJoin : List ReportItem → List ReportItem
  | [] => []
  | [b] => [b]
  | b :: c :: rest => b :: ReportItem.blankRow :: ReportItem.blankRow :: sepJoin (c :: rest)

lemma foldl_blocks_eq (periods : List (String × String)) (df : List Lead) :
    ∀ (l : List String) (init : List ReportItem),
      l.foldl (fun acc source =>
        let fr := filtered_results periods df source
        if fr.isEmpty then acc
        else acc ++ [ReportItem.block source fr, ReportItem.blankRow, ReportItem.blankRow]) init
      = init ++ l.flatMap (fun source =>
          let fr := filtered_results periods df source
          if fr.isEmpty then []
          else [ReportItem.block source fr, ReportItem.blankRow, ReportItem.blankRow])
  | [], init => by simp
  | s :: l, init => by
    simp only [List.foldl_cons, List.flatMap_cons, foldl_blocks_eq periods df l]
    by_cases hfr : (filtered_results periods df s).isEmpty
    · simp [hfr]
    · simp [hfr]

lemma flatMap_filterMap_blocks (periods : List (String × String)) (df : List Lead) :
    ∀ l : List String,
      l.flatMap (fun source =>
          let fr := filtered_results periods df source
          if fr.isEmpty then []
          else [ReportItem.block source fr, ReportItem.blankRow, ReportItem.blankRow])
      = (l.filterMap (fun source =>
          let fr := filtered_results periods df source
          if fr.isEmpty then none else some (ReportItem.block source fr))).flatMap
            (fun b => [b, ReportItem.blankRow, ReportItem.blankRow])
  | [] => by simp
  | s :: l => by
    simp only [List.flatMap_cons, List.filterMap_cons]
    have ih := flatMap_filterMap_blocks periods df l
    simp only [List.isEmpty_iff] at ih
    by_cases hfr : filtered_results periods df s = []
    · simp [hfr, ih]
    · simp [hfr, ih]

lemma flatMap_sepJoin : ∀ (bl : List ReportItem), bl ≠ [] →
    bl.flatMap (fun b => [b, ReportItem.blankRow, ReportItem.blankRow])
      = sepJoin bl ++ [ReportItem.blankRow, ReportItem.blankRow]
  | [], h => absurd rfl h
  | [b], _ => rfl
  | b :: c :: rest, _ => by
    have ih := flatMap_sepJoin (c :: rest) (by simp)
    rw [List.flatMap_cons, ih]
    simp [sepJoin]

lemma final_report_eq_sepJoin (periods : List (String × String)) (df : List Lead) :
    final_report periods df = sepJoin (report_blocks periods df) := by
  have harl : all_reports_list periods df
      = (report_blocks periods df).flatMap
          (fun b => [b, ReportItem.blankRow, ReportItem.blankRow]) := by
    rw [all_reports_list, foldl_blocks_eq periods df, List.nil_append,
      flatMap_filterMap_blocks periods df, report_blocks]
  by_cases hb : report_blocks periods df = []
  · rw [final_report, harl, hb]
    rfl
  · rw [final_report, harl, flatMap_sepJoin _ hb]
    have hne : ((sepJoin (report_blocks periods df)
        ++ [ReportItem.blankRow, ReportItem.blankRow]).isEmpty) = false := by
      simp
    rw [hne]
    simp only [Bool.false_eq_true, if_false]
    rw [show sepJoin (report_blocks periods df) ++ [ReportItem.blankRow, ReportItem.blankRow]
        = (sepJoin (report_blocks periods df) ++ [ReportItem.blankRow]) ++ [ReportItem.blankRow]
      by simp, List.dropLast_concat, List.dropLast_concat]

/-- C4: the consolidated report is exactly the non-empty segment blocks
joined with two blank separator rows between consecutive blocks and no
blank row after the final block; a segment whose period results are all
empty is absent from `report_blocks`, contributing neither a block nor a
separator. -/
theorem final_report_separators (periods : List (String × String)) (df : List Lead) :
    final_report periods df = sepJoin (report_blocks periods df) :=
  final_report_eq_sepJoin periods df

/-- Test whether a report item is a segment block labeled "Overall". -/
def isOverallBlock : ReportItem → Bool
  | ReportItem.block s _ => s == "Overall"
  | ReportItem.blankRow => false

lemma filter_sepJoin (p : ReportItem → Bool) (hp : p ReportItem.blankRow = false) :
    ∀ bl : List ReportItem, (sepJoin bl).filter p = bl.filter p
  | [] => rfl
  | [b] => rfl
  | b :: c :: rest => by
    have ih := filter_sepJoin p hp (c :: rest)
    simp only [sepJoin, List.filter_cons, hp, Bool.false_eq_true, if_false, ih]

lemma report_blocks_overall (periods : List (String × String)) (df : List Lead)
    (h2 : filtered_results periods df "Overall" ≠ []) :
    ∀ l : List String,
      ((l.filterMap (fun source =>
          let fr := filtered_results periods df source
          if fr.isEmpty then none else some (ReportItem.block source fr))).filter
        isOverallBlock)
      = List.replicate (l.count "Overall")
          (ReportItem.block "Overall" (filtered_results periods df "Overall"))
  | [] => rfl
  | s :: l => by
    have ih := report_blocks_overall periods df h2 l
    simp only [List.isEmpty_iff] at ih ⊢
    by_cases hs : s = "Overall"
    · subst hs
      simp [List.filterMap_cons, h2, isOverallBlock, ih, List.count_cons, List.replicate_succ]
    · by_cases hfr : filtered_results periods df s = []
      · simp [List.filterMap_cons, hfr, hs, ih, List.count_cons]
      · simp [List.filterMap_cons, hfr, hs, isOverallBlock, ih, List.count_cons]

lemma sortedSources_count_overall (df : List Lead)
    (h1 : "Overall" ∈ df.map (fun r => r.source)) :
    (sortedSources df).count "Overall" = 1 := by
  have hmem : "Overall" ∈ sortedSources df := by
    rw [sortedSources, List.mem_insertionSort, List.mem_dedup]
    exact h1
  have hnd : (sortedSources df).Nodup := by
    have hp := List.perm_insertionSort (α := String) (· ≤ ·)
      ((df.map (fun r => r.source)).dedup)
    exact hp.nodup_iff.mpr (List.nodup_dedup _)
  exact List.count_eq_one_of_mem hnd hmem

/-- C9: when the data itself contains the source label "Overall", the
sentinel segment and the data-derived segment are indistinguishable:
selecting the "Overall" segment never filters (it returns the whole
table), and the final report contains exactly two blocks labeled
"Overall", both equal and both computed from the entire table — no block
restricted to the records whose source is "Overall". -/
theorem overall_segment_duplication (df : List Lead)
    (h1 : "Overall" ∈ df.map (fun r => r.source))
    (h2 : filtered_results periods_to_analyze df "Overall" ≠ []) :
    segment_df df "Overall" = df
  ∧ (final_report periods_to_analyze df).filter isOverallBlock
      = [ReportItem.block "Overall" (filtered_results periods_to_analyze df "Overall"),
         ReportItem.block "Overall" (filtered_results periods_to_analyze df "Overall")] := by
  constructor
  · rfl
  · rw [final_report_eq_sepJoin, filter_sepJoin isOverallBlock rfl, report_blocks,
      report_blocks_overall periods_to_analyze df h2, sources_to_analyze]
    rw [List.count_cons_self, sortedSources_count_overall df h1]
    rfl

/-- A one-row table whose only source label is "Overall", with a lead in
the configured May 2025 period. -/
def c9df : List Lead :=
  [{ dt := ⟨2025, 5, 10⟩, leadCreateMonth := "2025-05", source := "Overall",
     isQualified := some 1, is_Lead_Called := some 0, is_Lead_Connected := some 0,
     attemptHours := none, connectHours := none }]

/-- Witness for C9 on the concrete one-row "Overall"-source table. -/
theorem overall_segment_duplication_witness :
    ("Overall" ∈ c9df.map (fun r => r.source))
  ∧ filtered_results periods_to_analyze c9df "Overall" ≠ []
  ∧ (segment_df c9df "Overall" = c9df
     ∧ (final_report periods_to_analyze c9df).filter isOverallBlock
        = [ReportItem.block "Overall" (filtered_results periods_to_analyze c9df "Overall"),
           ReportItem.block "Overall" (filtered_results periods_to_analyze c9df "Overall")]) :=
  ⟨by decide, by decide, overall_segment_duplication c9df (by decide) (by decide)⟩

/-- Blank the period-label cell of a raw record (used to state that two
tables agree everywhere except that column). -/
def stripMonth (r : RawRecord) : RawRecord := { r with leadCreateMonth := none }

/-- Blank the period-label field of a normalized lead. -/
def leadStrip (l : Lead) : Lead := { l with leadCreateMonth := "" }

@[simp] lemma leadStrip_dt (l : Lead) : (leadStrip l).dt = l.dt := rfl

@[simp] lemma leadStrip_source (l : Lead) : (leadStrip l).source = l.source := rfl

@[simp] lemma leadStrip_isQualified (l : Lead) : (leadStrip l).isQualified = l.isQualified := rfl

@[simp] lemma leadStrip_called (l : Lead) : (leadStrip l).is_Lead_Called = l.is_Lead_Called := rfl

@[simp] lemma leadStrip_connected (l : Lead) :
    (leadStrip l).is_Lead_Connected = l.is_Lead_Connected := rfl

@[simp] lemma leadStrip_attemptHours (l : Lead) :
    (leadStrip l).attemptHours = l.attemptHours := rfl

@[simp] lemma leadStrip_connectHours (l : Lead) :
    (leadStrip l).connectHours = l.connectHours := rfl

lemma isEmpty_map_leadStrip (l : List Lead) : (l.map leadStrip).isEmpty = l.isEmpty := by
  cases l <;> rfl

lemma calculate_kpis_map_leadStrip (sub : List Lead) :
    calculate_kpis (sub.map leadStrip) = calculate_kpis sub := by
  simp only [calculate_kpis, isEmpty_map_leadStrip, List.filter_map, List.filterMap_map,
    List.length_map, Function.comp_def, leadStrip_isQualified, leadStrip_called,
    leadStrip_connected, leadStrip_attemptHours, leadStrip_connectHours]

lemma segment_df_map (df : List Lead) (s : String) :
    segment_df (df.map leadStrip) s = (segment_df df s).map leadStrip := by
  by_cases h : (s == "Overall") = true
  · simp [segment_df, h]
  · simp [segment_df, h, List.filter_map, Function.comp_def]

lemma period_subset_map (df : List Lead) (n m : String) :
    period_subset (df.map leadStrip) n m = (period_subset df n m).map leadStrip := by
  by_cases hc : containsMTD n = true
  · simp [period_subset, hc, mtd_filter, List.filter_map, Function.comp_def]
  · simp [period_subset, hc, month_filter, List.filter_map, Function.comp_def]

lemma monthly_kpis_map (periods : List (String × String)) (df : List Lead) :
    monthly_kpis_for_source periods (df.map leadStrip) = monthly_kpis_for_source periods df := by
  simp only [monthly_kpis_for_source, period_subset_map, calculate_kpis_map_leadStrip]

lemma filtered_results_map (periods : List (String × String)) (df : List Lead) (s : String) :
    filtered_results periods (df.map leadStrip) s = filtered_results periods df s := by
  rw [filtered_results, filtered_results, segment_df_map, monthly_kpis_map]

lemma sources_to_analyze_map (df : List Lead) :
    sources_to_analyze (df.map leadStrip) = sources_to_analyze df := by
  simp only [sources_to_analyze, sortedSources, List.map_map, Function.comp_def,
    leadStrip_source]

lemma final_report_map (periods : List (String × String)) (df : List Lead) :
    final_report periods (df.map leadStrip) = final_report periods df := by
  rw [final_report, final_report, all_reports_list, all_reports_list, sources_to_analyze_map]
  simp only [filtered_results_map]

lemma normalize_strip_factor (rs : List RawRecord) :
    (normalize rs).map leadStrip
      = (rs.map stripMonth).filterMap (fun r =>
          match r.leadCreateDateTime, r.opportunitySource with
          | some ts, some src =>
              some { dt := ts, leadCreateMonth := "", source := src,
                     isQualified := r.isQualified, is_Lead_Called := r.is_Lead_Called,
                     is_Lead_Connected := r.is_Lead_Connected,
                     attemptHours := r.attemptHours, connectHours := r.connectHours }
          | _, _ => none) := by
  rw [normalize, List.map_filterMap, List.filterMap_map]
  congr 1
  funext r
  cases hdt : r.leadCreateDateTime <;> cases hsrc : r.opportunitySource <;>
    simp [stripMonth, leadStrip, hdt, hsrc]

/-- C10: two raw tables with the same columns that agree on every cell
outside the period-label column produce the same run outcome: the values
of the period-label column never influence row dropping, segment
selection or any KPI value. -/
theorem month_column_noninterference (t1 t2 : RawTable)
    (hcols : t1.columns = t2.columns)
    (_hmonth : "LeadCreateMonth" ∈ t1.columns)
    (hrows : t1.rows.map stripMonth = t2.rows.map stripMonth) :
    main_run t1 = main_run t2 := by
  have e1 : (normalize t1.rows).map leadStrip = (normalize t2.rows).map leadStrip := by
    rw [normalize_strip_factor, normalize_strip_factor, hrows]
  have hrep : final_report periods_to_analyze (normalize t1.rows)
      = final_report periods_to_analyze (normalize t2.rows) := by
    calc final_report periods_to_analyze (normalize t1.rows)
        = final_report periods_to_analyze ((normalize t1.rows).map leadStrip) :=
          (final_report_map periods_to_analyze (normalize t1.rows)).symm
      _ = final_report periods_to_analyze ((normalize t2.rows).map leadStrip) := by rw [e1]
      _ = final_report periods_to_analyze (normalize t2.rows) :=
          final_report_map periods_to_analyze (normalize t2.rows)
  simp only [main_run, hcols, hrep]

/-- C7: when a column the data-preparation step needs is absent from the
raw table, the run as a whole fails with an error naming a missing
required column, before any report (hence any KPI) is computed. -/
theorem main_run_missing_column (t : RawTable)
    (h : ∃ c ∈ required_columns, c ∉ t.columns) :
    ∃ c ∈ required_columns, c ∉ t.columns ∧ main_run t = Except.error c := by
  by_cases h1 : "LeadCreateDateTime" ∈ t.columns
  · by_cases h2 : "LeadCreateMonth" ∈ t.columns
    · by_cases h3 : "Opportunity Source" ∈ t.columns
      · exfalso
        obtain ⟨c, hc, hnc⟩ := h
        simp only [required_columns, List.mem_cons, List.mem_singleton,
          List.not_mem_nil, or_false] at hc
        rcases hc with rfl | rfl | rfl
        · exact hnc h1
        · exact hnc h2
        · exact hnc h3
      · exact ⟨"Opportunity Source", by simp [required_columns], h3,
          by simp [main_run, h1, h2, h3]⟩
    · exact ⟨"LeadCreateMonth", by simp [required_columns], h2,
        by simp [main_run, h1, h2]⟩
  · exact ⟨"LeadCreateDateTime", by simp [required_columns], h1,
      by simp [main_run, h1]⟩

/-- A raw table missing the Opportunity Source column. -/
def missingColTable : RawTable :=
  { columns := ["LeadCreateDateTime", "LeadCreateMonth"], rows := [] }

/-- Witness for C7 on a table missing the source column. -/
theorem main_run_missing_column_witness :
    (∃ c ∈ required_columns, c ∉ missingColTable.columns)
  ∧ (∃ c ∈ required_columns, c ∉ missingColTable.columns
      ∧ main_run missingColTable = Except.error c) :=
  ⟨⟨"Opportunity Source", by decide, by decide⟩,
    main_run_missing_column missingColTable ⟨"Opportunity Source", by decide, by decide⟩⟩

/-- A raw row with a present period label. -/
def c10row : RawRecord :=
  { leadCreateDateTime := some ⟨2025, 5, 10⟩, leadCreateMonth := some "2025-05",
    opportunitySource := some "Web", isQualified := some 1, is_Lead_Called := some 0,
    is_Lead_Connected := some 0, attemptHours := none, connectHours := none }

/-- A table containing `c10row` as its single row. -/
def c10t1 : RawTable :=
  { columns := ["LeadCreateDateTime", "LeadCreateMonth", "Opportunity Source"],
    rows := [c10row] }

/-- The same table with the period-label cell nulled out. -/
def c10t2 : RawTable :=
  { columns := ["LeadCreateDateTime", "LeadCreateMonth", "Opportunity Source"],
    rows := [{ c10row with leadCreateMonth := none }] }

/-- Witness for C10 on two one-row tables differing only in the
period-label cell. -/
theorem month_column_noninterference_witness :
    c10t1.columns = c10t2.columns
  ∧ "LeadCreateMonth" ∈ c10t1.columns
  ∧ c10t1.rows.map stripMonth = c10t2.rows.map stripMonth
  ∧ main_run c10t1 = main_run c10t2 :=
  ⟨rfl, by decide, by decide,
    month_column_noninterference c10t1 c10t2 rfl (by decide) (by decide)⟩

end KpiReport
